import Mathlib

/-! Shallow embedding of the secure command-execution sandbox of adorable-cli:
the policy defaults of `security_config.py`, the static validators and
execution pipelines of `secure_python.py` and `secure_shell.py`, and the
audit-log records both pipelines append.  Python strings are modelled as
their sequences of code points (`List Char` under a `String` wrapper), so
`len`, slicing and substring tests match Python semantics exactly. -/

/-- Python `str.strip()` default whitespace (the ASCII whitespace characters). -/
def pyIsSpace (c : Char) : Bool :=
  c = ' ' || c = '\t' || c = '\n' || c = '\r' || c = '\x0b' || c = '\x0c'

/-- Python `str.strip()` on the code points of a string. -/
def pyStrip (s : List Char) : List Char :=
  ((s.dropWhile pyIsSpace).reverse.dropWhile pyIsSpace).reverse

/-- Whether `pat` is a leading segment of `s` (Python `str.startswith`). -/
def startsWithL : List Char → List Char → Bool
  | _, [] => true
  | [], _ :: _ => false
  | c :: s, p :: ps => c = p && startsWithL s ps

/-- Python's substring test `pat in s`, on code points. -/
def containsL : List Char → List Char → Bool
  | [], pat => startsWithL [] pat
  | c :: rest, pat => startsWithL (c :: rest) pat || containsL rest pat

/-- Python `s.startswith(pat)`. -/
def strStartsWith (s pat : String) : Bool := startsWithL s.data pat.data

/-- Python `pat in s`. -/
def strContains (s pat : String) : Bool := containsL s.data pat.data

/-- Python `len(s)`: the number of code points. -/
def pyLen (s : String) : Nat := s.data.length

/-- Python `s.strip()`. -/
def pyStripStr (s : String) : String := String.mk (pyStrip s.data)

/-- Python `s[:n]`: the first `n` code points. -/
def pyTake (s : String) (n : Nat) : String := String.mk (s.data.take n)

/-- Python `s.split("\n")` on code points (`"".split("\n") = [""]`). -/
def splitNL : List Char → List (List Char)
  | [] => [[]]
  | c :: cs =>
    match splitNL cs with
    | [] => [[]]
    | r :: rs => if c = '\n' then [] :: r :: rs else (c :: r) :: rs

/-- Python `code.split("\n")`. -/
def pySplitLines (s : String) : List String := (splitNL s.data).map String.mk

/-! ## The python policy (`security_config.py`, key `"python"`) -/

/-- The fields of `security_config.config["python"]` read by `SecurePythonTools`. -/
structure PythonPolicy where
  safe_modules : List String
  dangerous_modules : List String
  dangerous_functions : List String
  allow_file_operations : Bool

/-- The `"python"` table of `SecurityConfig._load_default_config`. -/
def default_python_policy : PythonPolicy where
  safe_modules :=
    ["pandas", "numpy", "matplotlib", "seaborn", "scipy", "sklearn",
     "json", "csv", "re", "datetime", "collections", "math",
     "statistics", "random", "itertools", "pathlib", "typing",
     "dataclasses", "fractions", "decimal", "string",
     "plotly", "bokeh", "altair"]
  dangerous_modules :=
    ["subprocess", "os.system", "eval", "exec", "compile",
     "importlib", "__import__", "globals", "locals", "vars",
     "socket", "urllib", "requests", "http", "ftplib",
     "shutil", "tempfile", "glob", "fnmatch",
     "ctypes", "sys", "platform", "pwd", "grp",
     "pip", "setuptools", "conda", "pkg_resources"]
  dangerous_functions :=
    ["exec", "eval", "compile", "__import__", "open",
     "file", "input", "raw_input", "reload", "help"]
  allow_file_operations := false

/-! ## The python static validator (`SecurePythonTools._validate_code_safety`) -/

/-- The three rejection categories of one line of the scan, in the order the
source checks them: dangerous function, dangerous module import, file
operation. -/
inductive Violation where
  | func (name : String)
  | mod (name : String)
  | fileOp
deriving DecidableEq

/-- The dangerous-module patterns `import {m}`, `from {m}`, `import {m} as`
tested by substring membership on one (stripped) line. -/
def dangerousImportMatch (line : String) (m : String) : Bool :=
  strContains line ("import " ++ m) || strContains line ("from " ++ m) ||
    strContains line ("import " ++ m ++ " as")

/-- One iteration of the loop body of `_validate_code_safety`: strip the line,
skip it when blank or a `#` comment, otherwise report the first dangerous
function whose `name(` occurs, else the first dangerous module imported,
else a file operation when those are disallowed. -/
def findViolation (p : PythonPolicy) (rawLine : String) : Option Violation :=
  let line := pyStripStr rawLine
  if line.data.isEmpty || strStartsWith line "#" then none
  else
    match p.dangerous_functions.find? (fun f => strContains line (f ++ "(")) with
    | some f => some (Violation.func f)
    | none =>
      match p.dangerous_modules.find? (fun m => dangerousImportMatch line m) with
      | some m => some (Violation.mod m)
      | none =>
        if !p.allow_file_operations &&
            (strContains line "open(" || strContains line "file(" ||
              strContains line "with open") then
          some Violation.fileOp
        else none

/-- The rejection message of `_validate_code_safety` for a violation found at
1-based line `lineNum`. -/
def violationMsg (v : Violation) (lineNum : Nat) : String :=
  match v with
  | Violation.func f => s!"Dangerous function '{f}' found at line {lineNum}"
  | Violation.mod m => s!"Dangerous module '{m}' import found at line {lineNum}"
  | Violation.fileOp => s!"File operation not allowed at line {lineNum}"

/-- The line loop of `_validate_code_safety`, carrying the 1-based line number. -/
def scanLines (p : PythonPolicy) : Nat → List String → Option String
  | _, [] => none
  | n, l :: ls =>
    match findViolation p l with
    | some v => some (violationMsg v n)
    | none => scanLines p (n + 1) ls

/-- `SecurePythonTools._validate_code_safety`. -/
def validate_code_safety (p : PythonPolicy) (code : String) : Bool × String :=
  match scanLines p 1 (pySplitLines code) with
  | some msg => (false, msg)
  | none => (true, "Code safety validation passed")

/-! ## The shell policy (`security_config.py`, key `"shell"`) -/

/-- The fields of `security_config.config["shell"]` read by `SecureShellTools`. -/
structure ShellPolicy where
  allowed_commands : List String
  blocked_commands : List String
  allow_pipes : Bool
  allow_redirection : Bool
  allow_background : Bool

/-- The `"shell"` table of `SecurityConfig._load_default_config`. -/
def default_shell_policy : ShellPolicy where
  allowed_commands :=
    ["cat", "head", "tail", "grep", "awk", "sed", "sort",
     "uniq", "cut", "wc", "tr", "split", "join", "nl",
     "ls", "pwd", "whoami", "date", "uptime", "df", "du",
     "tar", "zip", "unzip", "gzip", "gunzip",
     "echo", "printf", "tee"]
  blocked_commands :=
    ["rm", "mv", "cp", "chmod", "chown", "sudo", "su",
     "kill", "killall", "pkill", "systemctl", "service",
     "curl", "wget", "nc", "netcat", "ssh", "scp", "rsync",
     "ping", "traceroute", "nslookup", "dig",
     "pip", "pip3", "conda", "apt", "yum", "dnf", "brew",
     "gcc", "g++", "make", "cmake", "python", "python3",
     "reboot", "shutdown", "halt", "poweroff", "init"]
  allow_pipes := false
  allow_redirection := false
  allow_background := false

/-! ## `shlex.split` (CPython, posix mode, `whitespace_split`, no comments),
as called by `SecureShellTools`.  The two `ValueError`s of `read_token` become
`Except.error` with the same message text. -/

/-- `shlex.whitespace` = `" \t\r\n"`. -/
def isShlexWS (c : Char) : Bool := c = ' ' || c = '\t' || c = '\r' || c = '\n'

/-- Emit a finished token: posix mode drops an empty token unless it was
quoted (`''` is a real empty argument). -/
def emitTok (tok : List Char) (quoted : Bool) (out : List String) : List String :=
  if tok.isEmpty && !quoted then out else String.mk tok :: out

/-- The states of `shlex.read_token`: between tokens, inside a word, inside a
single or double quote, and the escape state entered by a backslash from a
word or from a double quote. -/
inductive ShState where
  | ws | word | squote | dquote | escWord | escDquote

/-- The `read_token` loop of CPython's `shlex`, fused over the whole input:
`tok` is the token being built, `quoted` whether it saw a quote, `out` the
tokens emitted so far (reversed). -/
def shlexAux : ShState → List Char → List Char → Bool → List String →
    Except String (List String)
  | ShState.ws, [], _, _, out => Except.ok out.reverse
  | ShState.ws, c :: cs, tok, quoted, out =>
    if isShlexWS c then shlexAux ShState.ws cs tok quoted out
    else if c = '\\' then shlexAux ShState.escWord cs tok quoted out
    else if c = '\'' then shlexAux ShState.squote cs tok true out
    else if c = '"' then shlexAux ShState.dquote cs tok true out
    else shlexAux ShState.word cs (tok ++ [c]) quoted out
  | ShState.word, [], tok, quoted, out => Except.ok (emitTok tok quoted out).reverse
  | ShState.word, c :: cs, tok, quoted, out =>
    if isShlexWS c then shlexAux ShState.ws cs [] false (emitTok tok quoted out)
    else if c = '\'' then shlexAux ShState.squote cs tok true out
    else if c = '"' then shlexAux ShState.dquote cs tok true out
    else if c = '\\' then shlexAux ShState.escWord cs tok quoted out
    else shlexAux ShState.word cs (tok ++ [c]) quoted out
  | ShState.squote, [], _, _, _ => Except.error "No closing quotation"
  | ShState.squote, c :: cs, tok, quoted, out =>
    if c = '\'' then shlexAux ShState.word cs tok quoted out
    else shlexAux ShState.squote cs (tok ++ [c]) quoted out
  | ShState.dquote, [], _, _, _ => Except.error "No closing quotation"
  | ShState.dquote, c :: cs, tok, quoted, out =>
    if c = '"' then shlexAux ShState.word cs tok quoted out
    else if c = '\\' then shlexAux ShState.escDquote cs tok quoted out
    else shlexAux ShState.dquote cs (tok ++ [c]) quoted out
  | ShState.escWord, [], _, _, _ => Except.error "No escaped character"
  | ShState.escWord, c :: cs, tok, quoted, out =>
    shlexAux ShState.word cs (tok ++ [c]) quoted out
  | ShState.escDquote, [], _, _, _ => Except.error "No escaped character"
  | ShState.escDquote, c :: cs, tok, quoted, out =>
    if c = '\\' || c = '"' then shlexAux ShState.dquote cs (tok ++ [c]) quoted out
    else shlexAux ShState.dquote cs (tok ++ ['\\', c]) quoted out

/-- `shlex.split(command)` as `SecureShellTools` calls it. -/
def shlexSplit (s : String) : Except String (List String) :=
  shlexAux ShState.ws s.data [] false []

/-! ## The dangerous-pattern regexes of `_validate_command_safety`,
interpreted by a matcher for the fragment they use: literal characters,
an escaped literal, the class `\s`, and the quantifiers `*` and `+`. -/

/-- A single regex atom: a literal character or the class `\s`. -/
inductive RItem where
  | lit (c : Char)
  | wsClass

/-- A regex atom with its quantifier. -/
inductive RTok where
  | once (i : RItem)
  | star (i : RItem)
  | plus (i : RItem)

/-- An escaped character: `\s` is the whitespace class, anything else the
literal character. -/
def escItem (c : Char) : RItem := if c = 's' then RItem.wsClass else RItem.lit c

/-- Parse one of the six pattern strings into atoms with quantifiers. -/
def parseRegex : List Char → List RTok
  | [] => []
  | '\\' :: c :: '*' :: rest => RTok.star (escItem c) :: parseRegex rest
  | '\\' :: c :: '+' :: rest => RTok.plus (escItem c) :: parseRegex rest
  | '\\' :: c :: rest => RTok.once (escItem c) :: parseRegex rest
  | c :: '*' :: rest => RTok.star (RItem.lit c) :: parseRegex rest
  | c :: '+' :: rest => RTok.plus (RItem.lit c) :: parseRegex rest
  | c :: rest => RTok.once (RItem.lit c) :: parseRegex rest

/-- Atom match on one character; literals compare case-insensitively, as the
source searches with `re.IGNORECASE`. -/
def itemMatches (i : RItem) (c : Char) : Bool :=
  match i with
  | RItem.lit l => l.toLower = c.toLower
  | RItem.wsClass => pyIsSpace c

/-- Whether the token list matches a leading segment of the text, with
explicit fuel so the recursion is structural: every step removes an atom or
consumes a character, so `toks.length + cs.length + 1` fuel always reaches a
real base case. -/
def rMatchFuel : Nat → List RTok → List Char → Bool
  | 0, _, _ => false
  | _ + 1, [], _ => true
  | fuel + 1, RTok.once i :: ps, c :: cs => itemMatches i c && rMatchFuel fuel ps cs
  | _ + 1, RTok.once _ :: _, [] => false
  | fuel + 1, RTok.star i :: ps, cs =>
    rMatchFuel fuel ps cs ||
      (match cs with
       | c :: cs2 => itemMatches i c && rMatchFuel fuel (RTok.star i :: ps) cs2
       | [] => false)
  | fuel + 1, RTok.plus i :: ps, c :: cs =>
    itemMatches i c && rMatchFuel fuel (RTok.star i :: ps) cs
  | _ + 1, RTok.plus _ :: _, [] => false

/-- Whether the token list matches a leading segment of the text. -/
def rMatch (toks : List RTok) (cs : List Char) : Bool :=
  rMatchFuel (toks.length + cs.length + 1) toks cs

/-- Whether the token list matches at some position of the text. -/
def rSearchAux (toks : List RTok) : List Char → Bool
  | [] => rMatch toks []
  | c :: cs => rMatch toks (c :: cs) || rSearchAux toks cs

/-- `re.search(pattern, s, re.IGNORECASE) is not None` for the pattern
fragment used by the dangerous patterns. -/
def reSearch (pat : String) (s : String) : Bool :=
  rSearchAux (parseRegex pat.data) s.data

/-- The `dangerous_patterns` list of `_validate_command_safety`, verbatim. -/
def dangerous_patterns : List String :=
  [";\\s*rm\\s+", "&&\\s*rm\\s+", "\\|\\|\\s*rm\\s+",
   "rm\\s+-rf\\s+/", "chmod\\s+777", "sudo\\s+"]

/-- `SecureShellTools._validate_command_safety`: shlex-parse (a `ValueError`
is caught and becomes a parsing-error verdict), then the allow-list, the
block-list, the operator checks on the raw string, and the dangerous-pattern
regexes. -/
def validate_command_safety (p : ShellPolicy) (command : String) : Bool × String :=
  match shlexSplit command with
  | Except.error e => (false, "Command parsing error: " ++ e)
  | Except.ok [] => (false, "Empty command")
  | Except.ok (main_cmd :: _) =>
    if !(p.allowed_commands.contains main_cmd) then
      (false, s!"Command '{main_cmd}' is not in allowed list")
    else if p.blocked_commands.contains main_cmd then
      (false, s!"Command '{main_cmd}' is blocked")
    else if strContains command "|" && !p.allow_pipes then
      (false, "Pipe operations are not allowed")
    else if (strContains command ">" || strContains command "<") && !p.allow_redirection then
      (false, "Redirection operations are not allowed")
    else if strContains command "&" && !p.allow_background then
      (false, "Background execution is not allowed")
    else
      match dangerous_patterns.find? (fun pat => reSearch pat command) with
      | some pat => (false, s!"Dangerous command pattern detected: {pat}")
      | none => (true, "Command validation passed")

/-! ## The execution policy (`security_config.py`, key `"execution"`) and the
audit-log records of `_log_text_output` -/

/-- The fields of `security_config.config["execution"]`. -/
structure ExecutionConfig where
  use_pipx_python : Bool
  max_execution_time : Nat
  max_memory_mb : Nat
  audit_mode : Bool
  log_executions : Bool
  temp_dir : String
  cleanup_temp : Bool

/-- The `"execution"` table of `SecurityConfig._load_default_config`. -/
def default_execution_config : ExecutionConfig where
  use_pipx_python := true
  max_execution_time := 30
  max_memory_mb := 512
  audit_mode := false
  log_executions := true
  temp_dir := "/tmp/adorable_secure_exec"
  cleanup_temp := true

/-- The dict written (one line per call) by
`SecurePythonTools._log_text_output`; the `time.time()` timestamp is an
opaque parameter. -/
structure PythonLogEntry where
  timestamp : Nat
  type : String
  code : String
  success : Bool
  output_length : Nat
  error_length : Nat

/-- The log record of `SecurePythonTools._log_text_output(code, output)`. -/
def python_log_entry (ts : Nat) (code output : String) : PythonLogEntry where
  timestamp := ts
  type := "python"
  code := if pyLen code > 200 then pyTake code 200 ++ "..." else code
  success := !strStartsWith output "Error:"
  output_length := pyLen output
  error_length := if !strStartsWith output "Error:" then 0 else pyLen output

/-- The dict written by `SecureShellTools._log_text_output`. -/
structure ShellLogEntry where
  timestamp : Nat
  type : String
  command : String
  success : Bool
  output_length : Nat
  error_length : Nat

/-- The log record of `SecureShellTools._log_text_output(command, output)`. -/
def shell_log_entry (ts : Nat) (command output : String) : ShellLogEntry where
  timestamp := ts
  type := "shell"
  command := command
  success := !strStartsWith output "Error:"
  output_length := pyLen output
  error_length := if !strStartsWith output "Error:" then 0 else pyLen output

/-! ## The two public pipelines -/

/-- What a call to a public entry point does for the caller: return a string,
or let an exception escape. -/
inductive CallOutcome where
  | ret (s : String)
  | exn (e : String)
deriving DecidableEq

/-- `SecurePythonTools.execute_python_code`.  `engine` is the out-of-scope
Agno `PythonTools.run_python_code`; `logExn` is the environment of the audit
write: `none` when the filesystem write succeeds, `some e` when it raises
`e`.  The source wraps neither `_log_text_output` nor its call site in
`try/except`, so a raised `e` escapes the entry point; the second component
lists the audit records appended by the call. -/
def execute_python_code (cfg : ExecutionConfig) (p : PythonPolicy)
    (engine : String → Option String → String) (logExn : Option String)
    (ts : Nat) (code : String) (variable_to_return : Option String) :
    CallOutcome × List PythonLogEntry :=
  if cfg.audit_mode then
    (CallOutcome.ret ("[AUDIT MODE] Would execute Python code:\n" ++ code), [])
  else
    let v := validate_code_safety p code
    if !v.1 then
      (CallOutcome.ret ("Error: Security validation failed: " ++ v.2), [])
    else
      let output := engine code variable_to_return
      if cfg.log_executions then
        match logExn with
        | some e => (CallOutcome.exn e, [])
        | none => (CallOutcome.ret output, [python_log_entry ts code output])
      else (CallOutcome.ret output, [])

/-- `SecureShellTools.run_shell_command`.  `engine` is the out-of-scope Agno
`ShellTools.run_shell_command`, applied to `shlex.split(command)` and `tail`;
`logExn` as in `execute_python_code`. -/
def run_shell_command (cfg : ExecutionConfig) (p : ShellPolicy)
    (engine : List String → Nat → String) (logExn : Option String)
    (ts : Nat) (command : String) (tail : Nat) :
    CallOutcome × List ShellLogEntry :=
  if cfg.audit_mode then
    (CallOutcome.ret ("[AUDIT MODE] Would execute shell command: " ++ command), [])
  else
    let v := validate_command_safety p command
    if !v.1 then
      (CallOutcome.ret ("Error: Security validation failed: " ++ v.2), [])
    else
      let args := ((shlexSplit command).toOption).getD []
      let output := engine args tail
      if cfg.log_executions then
        match logExn with
        | some e => (CallOutcome.exn e, [])
        | none => (CallOutcome.ret output, [shell_log_entry ts command output])
      else (CallOutcome.ret output, [])

/-! ## User-policy loading (`SecurityConfig._load_user_config` /
`_merge_config`).  The YAML document is modelled as a value tree; the shapes
occurring in the security config are scalars, lists of strings and nested
string-keyed tables. -/

/-- A parsed YAML value as `_merge_config` sees it. -/
inductive ConfigVal where
  | nullV
  | boolV (b : Bool)
  | natV (n : Nat)
  | strV (s : String)
  | listV (xs : List String)
  | dictV (entries : List (String × ConfigVal))

/-- Python truthiness of a YAML value, for `yaml.safe_load(f) or {}`. -/
def pyFalsy : ConfigVal → Bool
  | ConfigVal.nullV => true
  | ConfigVal.boolV b => !b
  | ConfigVal.natV n => n == 0
  | ConfigVal.strV s => s.data.isEmpty
  | ConfigVal.listV xs => xs.isEmpty
  | ConfigVal.dictV es => es.isEmpty

/-- `user_config = yaml.safe_load(f) or {}`. -/
def pyOrEmptyDict (v : ConfigVal) : ConfigVal :=
  if pyFalsy v then ConfigVal.dictV [] else v

/-- `base[k] = v` on an insertion-ordered dict: replace in place, else append. -/
def setKey (base : List (String × ConfigVal)) (k : String) (v : ConfigVal) :
    List (String × ConfigVal) :=
  match base with
  | [] => [(k, v)]
  | (k2, v2) :: rest => if k2 = k then (k, v) :: rest else (k2, v2) :: setKey rest k v

/-- `base[k]` lookup. -/
def lookupKey (base : List (String × ConfigVal)) (k : String) : Option ConfigVal :=
  match base with
  | [] => none
  | (k2, v2) :: rest => if k2 = k then some v2 else lookupKey rest k

mutual
/-- The loop of `SecurityConfig._merge_config` over `override.items()`. -/
def merge_entries (base : List (String × ConfigVal)) :
    List (String × ConfigVal) → List (String × ConfigVal)
  | [] => base
  | (k, v) :: rest => merge_entries (merge_one base k v) rest
  termination_by l => sizeOf l

/-- One step of `_merge_config`: recurse when both sides hold a dict at `k`,
otherwise the override value wins. -/
def merge_one (base : List (String × ConfigVal)) (k : String) (v : ConfigVal) :
    List (String × ConfigVal) :=
  match lookupKey base k, v with
  | some (ConfigVal.dictV bsub), ConfigVal.dictV osub =>
    setKey base k (ConfigVal.dictV (merge_entries bsub osub))
  | some (ConfigVal.dictV _), _ => setKey base k v
  | some (ConfigVal.nullV), _ => setKey base k v
  | some (ConfigVal.boolV _), _ => setKey base k v
  | some (ConfigVal.natV _), _ => setKey base k v
  | some (ConfigVal.strV _), _ => setKey base k v
  | some (ConfigVal.listV _), _ => setKey base k v
  | none, _ => setKey base k v
  termination_by sizeOf v
end

/-- `SecurityConfig._load_user_config` over the state of the world: whether
the user policy file exists, and what reading-and-parsing it yields.
`Except.error` is any exception while opening or parsing (swallowed by the
source's `except Exception: pass`); a parsed document that is not a mapping
makes `_merge_config` raise `AttributeError` on `override.items()` before it
mutates anything, which the same handler swallows, so the base survives
unchanged in that case too. -/
def load_user_config (base : List (String × ConfigVal)) (fileExists : Bool)
    (readResult : Except String ConfigVal) : List (String × ConfigVal) :=
  if fileExists then
    match readResult with
    | Except.error _ => base
    | Except.ok v =>
      match pyOrEmptyDict v with
      | ConfigVal.dictV entries => merge_entries base entries
      | _ => base
  else base

/-- `SecurityConfig._load_default_config` as the value tree the merge acts
on. -/
def default_config_dict : List (String × ConfigVal) :=
  [("execution", ConfigVal.dictV
     [("use_pipx_python", ConfigVal.boolV true),
      ("max_execution_time", ConfigVal.natV 30),
      ("max_memory_mb", ConfigVal.natV 512),
      ("audit_mode", ConfigVal.boolV false),
      ("log_executions", ConfigVal.boolV true),
      ("temp_dir", ConfigVal.strV "/tmp/adorable_secure_exec"),
      ("cleanup_temp", ConfigVal.boolV true)]),
   ("python", ConfigVal.dictV
     [("safe_modules", ConfigVal.listV default_python_policy.safe_modules),
      ("dangerous_modules", ConfigVal.listV default_python_policy.dangerous_modules),
      ("dangerous_functions", ConfigVal.listV default_python_policy.dangerous_functions),
      ("allow_file_operations", ConfigVal.boolV false),
      ("allowed_file_paths", ConfigVal.listV ["./data", "./results", "."])]),
   ("shell", ConfigVal.dictV
     [("allowed_commands", ConfigVal.listV default_shell_policy.allowed_commands),
      ("blocked_commands", ConfigVal.listV default_shell_policy.blocked_commands),
      ("allow_pipes", ConfigVal.boolV false),
      ("allow_redirection", ConfigVal.boolV false),
      ("allow_background", ConfigVal.boolV false)])]

deriving instance DecidableEq for Except

/-! ## Claims -/

/-- C10: the success flag of every audit record is derived solely from the
returned output string — true iff the output does not start with `"Error:"` —
and when it does start with `"Error:"` the record's `error_length` is the full
output length (and `output_length` always is). -/
theorem C10_success_flag_from_output (ts : Nat) (payload output : String) :
    (python_log_entry ts payload output).success = !strStartsWith output "Error:" ∧
    (shell_log_entry ts payload output).success = !strStartsWith output "Error:" ∧
    (python_log_entry ts payload output).output_length = pyLen output ∧
    (shell_log_entry ts payload output).output_length = pyLen output ∧
    (python_log_entry ts payload output).error_length =
      (if strStartsWith output "Error:" then pyLen output else 0) ∧
    (shell_log_entry ts payload output).error_length =
      (if strStartsWith output "Error:" then pyLen output else 0) := by
  refine ⟨rfl, rfl, rfl, rfl, ?_, ?_⟩ <;>
    cases h : strStartsWith output "Error:" <;>
      simp [python_log_entry, shell_log_entry, h]

/-- C4: for every shell policy configuration, validating `"rm -rf /"` returns
unsafe — when `rm` is allow-listed and not blocked, the hard-ban
dangerous-pattern `rm\s+-rf\s+/` rejects it. -/
theorem C4_rm_rf_root_always_unsafe (p : ShellPolicy) :
    (validate_command_safety p "rm -rf /").1 = false := by
  have hsplit : shlexSplit "rm -rf /" = Except.ok ["rm", "-rf", "/"] := by decide
  have hpipe : strContains "rm -rf /" "|" = false := by decide
  have hgt : strContains "rm -rf /" ">" = false := by decide
  have hlt : strContains "rm -rf /" "<" = false := by decide
  have hamp : strContains "rm -rf /" "&" = false := by decide
  have hpat : dangerous_patterns.find? (fun pat => reSearch pat "rm -rf /") =
      some "rm\\s+-rf\\s+/" := by decide
  by_cases hA : "rm" ∈ p.allowed_commands <;>
    by_cases hB : "rm" ∈ p.blocked_commands <;>
      simp [validate_command_safety, hsplit, hpipe, hgt, hlt, hamp, hpat, hA, hB]

/-- C8: both static validators are total: for every input string and policy
they return an `(is_safe, reason)` pair, and a shell tokenization failure is
caught and yields an unsafe verdict with a parsing-error reason. -/
theorem C8_validators_total (pp : PythonPolicy) (sp : ShellPolicy)
    (code command : String) :
    (∃ b r, validate_code_safety pp code = (b, r)) ∧
    (∃ b r, validate_command_safety sp command = (b, r)) ∧
    (∀ e, shlexSplit command = Except.error e →
      validate_command_safety sp command =
        (false, "Command parsing error: " ++ e)) := by
  refine ⟨⟨_, _, rfl⟩, ⟨_, _, rfl⟩, ?_⟩
  intro e he
  simp [validate_command_safety, he]

/-- C8 witness: the unbalanced quote in `echo 'abc` makes `shlex` fail, and
the validator reports the parsing error instead of throwing. -/
theorem C8_validators_total_witness :
    shlexSplit "echo 'abc" = Except.error "No closing quotation" ∧
    validate_command_safety default_shell_policy "echo 'abc" =
      (false, "Command parsing error: " ++ "No closing quotation") :=
  ⟨by decide,
    (C8_validators_total default_python_policy default_shell_policy "" "echo 'abc").2.2
      "No closing quotation" (by decide)⟩

/-- C9: when the user policy file exists but reading or parsing it raises, or
the parsed document is not a mapping (so `_merge_config` raises on
`override.items()` before mutating anything), the swallowed failure leaves
the built-in default configuration unchanged and nothing propagates. -/
theorem C9_corrupt_user_policy_ignored (readResult : Except String ConfigVal)
    (h : (∃ e, readResult = Except.error e) ∨
      (∃ v, readResult = Except.ok v ∧
        ∀ entries, pyOrEmptyDict v ≠ ConfigVal.dictV entries)) :
    load_user_config default_config_dict true readResult = default_config_dict := by
  rcases h with ⟨e, rfl⟩ | ⟨v, rfl, hv⟩
  · simp [load_user_config]
  · cases hpv : pyOrEmptyDict v with
    | dictV entries => exact absurd hpv (hv entries)
    | nullV => simp [load_user_config, hpv]
    | boolV b => simp [load_user_config, hpv]
    | natV n => simp [load_user_config, hpv]
    | strV s => simp [load_user_config, hpv]
    | listV xs => simp [load_user_config, hpv]

/-- C9 witness: a YAML scanner error, and a parsed document that is a bare
string instead of a mapping, both leave the defaults untouched. -/
theorem C9_corrupt_user_policy_ignored_witness :
    load_user_config default_config_dict true
        (Except.error "yaml.scanner.ScannerError") = default_config_dict ∧
    load_user_config default_config_dict true
        (Except.ok (ConfigVal.strV "not a mapping")) = default_config_dict :=
  ⟨C9_corrupt_user_policy_ignored _ (Or.inl ⟨_, rfl⟩),
   C9_corrupt_user_policy_ignored _
     (Or.inr ⟨_, rfl, fun entries h => by simp [pyOrEmptyDict, pyFalsy] at h⟩)⟩

/-- C1 counterexample: with logging on and audit off, a raised audit-write
exception escapes `execute_python_code` — the already-computed engine output
`"2\n"` is not returned. -/
theorem C1_counterexample :
    execute_python_code default_execution_config default_python_policy
        (fun _ _ => "2\n") (some "PermissionError 13") 0 "x = 1" none =
      (CallOutcome.exn "PermissionError 13", []) ∧
    (execute_python_code default_execution_config default_python_policy
        (fun _ _ => "2\n") (some "PermissionError 13") 0 "x = 1" none).1 ≠
      CallOutcome.ret "2\n" :=
  ⟨rfl, by decide⟩

/-- C1 amended: neither `_log_text_output` nor its call sites catch
exceptions, so an exception raised while writing the audit record escapes
both public entry points and the engine output is lost; only when the write
does not raise is the engine output returned. -/
theorem C1_log_failure_escapes (cfg : ExecutionConfig) (p : PythonPolicy)
    (sp : ShellPolicy) (pengine : String → Option String → String)
    (sengine : List String → Nat → String) (e : String) (ts : Nat)
    (code command : String) (vr : Option String) (tail : Nat)
    (haudit : cfg.audit_mode = false) (hlog : cfg.log_executions = true)
    (hsafe : (validate_code_safety p code).1 = true)
    (hcmd : (validate_command_safety sp command).1 = true) :
    (execute_python_code cfg p pengine (some e) ts code vr).1 = CallOutcome.exn e ∧
    (execute_python_code cfg p pengine none ts code vr).1 =
      CallOutcome.ret (pengine code vr) ∧
    (run_shell_command cfg sp sengine (some e) ts command tail).1 =
      CallOutcome.exn e ∧
    (run_shell_command cfg sp sengine none ts command tail).1 =
      CallOutcome.ret (sengine ((shlexSplit command).toOption.getD []) tail) := by
  refine ⟨?_, ?_, ?_, ?_⟩ <;>
    simp [execute_python_code, run_shell_command, haudit, hlog, hsafe, hcmd]

/-- C1 amended witness: concrete safe code and command under the default
configuration, with a raising and a non-raising audit write. -/
theorem C1_log_failure_escapes_witness :
    (execute_python_code default_execution_config default_python_policy
        (fun _ _ => "ok") (some "boom") 0 "x = 1" none).1 = CallOutcome.exn "boom" ∧
    (execute_python_code default_execution_config default_python_policy
        (fun _ _ => "ok") none 0 "x = 1" none).1 = CallOutcome.ret "ok" ∧
    (run_shell_command default_execution_config default_shell_policy
        (fun _ _ => "listing") (some "boom") 0 "ls" 100).1 = CallOutcome.exn "boom" ∧
    (run_shell_command default_execution_config default_shell_policy
        (fun _ _ => "listing") none 0 "ls" 100).1 = CallOutcome.ret "listing" :=
  C1_log_failure_escapes default_execution_config default_python_policy
    default_shell_policy (fun _ _ => "ok") (fun _ _ => "listing") "boom" 0
    "x = 1" "ls" none 100 rfl rfl (by decide) (by decide)

/-- C2 counterexample: with `log_executions` true and `audit_mode` false, a
call rejected by static validation appends no audit record — not exactly
one. -/
theorem C2_counterexample :
    (execute_python_code default_execution_config default_python_policy
        (fun _ _ => "") none 0 "eval('2+2')" none).2 = [] ∧
    (execute_python_code default_execution_config default_python_policy
        (fun _ _ => "") none 0 "eval('2+2')" none).2.length ≠ 1 :=
  ⟨rfl, by decide⟩

/-- C2 amended: with the default execution configuration (`log_executions`
true, `audit_mode` false) and an audit write that does not raise, a call
appends exactly one record when static validation passes and none when the
attempt is rejected — rejected attempts return before the logging step. -/
theorem C2_one_record_iff_validated (pengine : String → Option String → String)
    (sengine : List String → Nat → String) (ts : Nat) (code command : String)
    (vr : Option String) (tail : Nat) :
    (execute_python_code default_execution_config default_python_policy
        pengine none ts code vr).2.length =
      (if (validate_code_safety default_python_policy code).1 then 1 else 0) ∧
    (run_shell_command default_execution_config default_shell_policy
        sengine none ts command tail).2.length =
      (if (validate_command_safety default_shell_policy command).1 then 1 else 0) := by
  constructor
  · cases hv : validate_code_safety default_python_policy code with
    | mk b r => cases b <;> simp [execute_python_code, default_execution_config, hv]
  · cases hv : validate_command_safety default_shell_policy command with
    | mk b r => cases b <;> simp [run_shell_command, default_execution_config, hv]

/-- Length of a concatenation of Python strings. -/
theorem pyLen_append (a b : String) : pyLen (a ++ b) = pyLen a + pyLen b := by
  simp [pyLen, String.data_append]

set_option maxRecDepth 4000 in
/-- C5 counterexample: a 201-character code payload is stored as 203
characters (200 plus the `"..."` ellipsis), and a 300-character shell
command is stored untruncated. -/
theorem C5_counterexample :
    pyLen ((python_log_entry 0 (String.mk (List.replicate 201 'a')) "out").code) = 203 ∧
    (shell_log_entry 0 (String.mk (List.replicate 300 'b')) "out").command =
      String.mk (List.replicate 300 'b') ∧
    pyLen ((shell_log_entry 0 (String.mk (List.replicate 300 'b')) "out").command) = 300 :=
  ⟨by decide, rfl, by decide⟩

/-- C5 amended: the python audit record stores code of at most 200
characters unchanged and longer code as its first 200 characters followed by
`"..."` (203 characters in total); the shell audit record stores the command
untruncated. -/
theorem C5_truncation (ts : Nat) (code command output : String) :
    pyLen ((python_log_entry ts code output).code) =
      (if 200 < pyLen code then 203 else pyLen code) ∧
    (pyLen code ≤ 200 → (python_log_entry ts code output).code = code) ∧
    (shell_log_entry ts command output).command = command := by
  refine ⟨?_, ?_, rfl⟩
  · by_cases h : 200 < pyLen code
    · have h3 : pyLen "..." = 3 := rfl
      simp only [python_log_entry, gt_iff_lt, if_pos h, pyLen_append, h3]
      simp only [pyLen, pyTake, List.length_take]
      have : pyLen code = code.data.length := rfl
      omega
    · simp [python_log_entry, h]
  · intro h
    have h2 : ¬ 200 < pyLen code := by omega
    simp [python_log_entry, h2]

/-- C5 amended witness: a short code payload is stored unchanged. -/
theorem C5_truncation_witness :
    (python_log_entry 0 "print(1)" "1\n").code = "print(1)" :=
  (C5_truncation 0 "print(1)" "ls" "1\n").2.1 (by decide)

/-- C6 counterexample: under the default policy,
`execute_python_code("open('/etc/hosts').read()")` is rejected with the
dangerous-function message for `open`, which mentions no file operation. -/
theorem C6_counterexample :
    (execute_python_code default_execution_config default_python_policy
        (fun _ _ => "") none 0 "open('/etc/hosts').read()" none).1 =
      CallOutcome.ret
        "Error: Security validation failed: Dangerous function 'open' found at line 1" ∧
    strContains
      "Error: Security validation failed: Dangerous function 'open' found at line 1"
      "File operation" = false ∧
    strContains
      "Error: Security validation failed: Dangerous function 'open' found at line 1"
      "file" = false :=
  ⟨by decide, by decide, by decide⟩

/-- C6 amended: with the default policy (`allow_file_operations` false,
`audit_mode` off), `execute_python_code("open('/etc/hosts').read()")`
returns a rejection at line 1 whose reason cites the dangerous function
`open` — the dangerous-function check (which also lists `open`) fires before
the file-operation check, so the file-operation message is unreachable for
this input. -/
theorem C6_open_rejected_as_dangerous_function
    (engine : String → Option String → String) (logExn : Option String)
    (ts : Nat) (vr : Option String) :
    (execute_python_code default_execution_config default_python_policy engine
        logExn ts "open('/etc/hosts').read()" vr).1 =
      CallOutcome.ret
        "Error: Security validation failed: Dangerous function 'open' found at line 1" := by
  have hv : validate_code_safety default_python_policy "open('/etc/hosts').read()" =
      (false, "Dangerous function 'open' found at line 1") := by decide
  simp [execute_python_code, default_execution_config, hv]

/-- C7 counterexample: under the default policy,
`execute_python_code("import subprocess")` returns the static validator's
dangerous-module message, which does not contain `"not allowed"`. -/
theorem C7_counterexample :
    (execute_python_code default_execution_config default_python_policy
        (fun _ _ => "") none 0 "import subprocess" none).1 =
      CallOutcome.ret
        "Error: Security validation failed: Dangerous module 'subprocess' import found at line 1" ∧
    strContains
      "Error: Security validation failed: Dangerous module 'subprocess' import found at line 1"
      "not allowed" = false :=
  ⟨by decide, by decide⟩

/-- `restricted_import` from `SecurePythonTools._create_safe_globals`: permit
an import exactly when the top-level package name (`name.split(".")[0]`) is
in `safe_modules`; otherwise raise `ImportError f"Module '{name}' not
allowed"`. -/
def restricted_import (p : PythonPolicy) (name : String) : Except String Unit :=
  if p.safe_modules.contains (String.mk (name.data.takeWhile (fun c => c ≠ '.'))) then
    Except.ok ()
  else Except.error s!"Module '{name}' not allowed"

/-- C7 amended: `execute_python_code("import subprocess")` under the default
policy returns an error string citing the dangerous module `subprocess` at
line 1; the string does not contain `"not allowed"`, because the static
validator rejects before execution ever reaches the restricted import hook —
whose own message for `subprocess` would be `"Module 'subprocess' not
allowed"`. -/
theorem C7_import_subprocess_message
    (engine : String → Option String → String) (logExn : Option String)
    (ts : Nat) (vr : Option String) :
    (execute_python_code default_execution_config default_python_policy engine
        logExn ts "import subprocess" vr).1 =
      CallOutcome.ret
        "Error: Security validation failed: Dangerous module 'subprocess' import found at line 1" ∧
    restricted_import default_python_policy "subprocess" =
      Except.error "Module 'subprocess' not allowed" := by
  have hv : validate_code_safety default_python_policy "import subprocess" =
      (false, "Dangerous module 'subprocess' import found at line 1") := by decide
  refine ⟨?_, by decide⟩
  simp [execute_python_code, default_execution_config, hv]

/-- If some line of the list triggers a violation, the line scan rejects. -/
theorem scanLines_isSome_of_mem (p : PythonPolicy) :
    ∀ (lines : List String) (n : Nat) (l : String),
      l ∈ lines → findViolation p l ≠ none → scanLines p n lines ≠ none := by
  intro lines
  induction lines with
  | nil => intro n l h; cases h
  | cons a rest ih =>
    intro n l hmem hv
    cases hfa : findViolation p a with
    | some v => simp [scanLines, hfa]
    | none =>
      simp only [scanLines, hfa]
      cases hmem with
      | head => exact absurd hfa hv
      | tail _ hmem2 => exact ih (n + 1) l hmem2 hv

/-- If line `i` (0-based) is the first line the scan flags, the scan reports
that line's violation with line number `n + i`. -/
theorem scanLines_first (p : PythonPolicy) :
    ∀ (lines : List String) (i n : Nat) (l : String) (v : Violation),
      lines.get? i = some l →
      (∀ j, j < i → ∀ l', lines.get? j = some l' → findViolation p l' = none) →
      findViolation p l = some v →
      scanLines p n lines = some (violationMsg v (n + i)) := by
  intro lines
  induction lines with
  | nil => intro i n l v hget; simp [List.get?] at hget
  | cons a rest ih =>
    intro i n l v hget hfirst hv
    cases i with
    | zero =>
      have ha : a = l := by
        have : some a = some l := hget
        cases this
        rfl
      subst ha
      simp [scanLines, hv]
    | succ i2 =>
      have ha : findViolation p a = none := hfirst 0 (Nat.succ_pos i2) a rfl
      have hrec := ih i2 (n + 1) l v hget
        (fun j hj l' hl' => hfirst (j + 1) (by omega) l' hl') hv
      have harith : n + 1 + i2 = n + (i2 + 1) := by omega
      rw [harith] at hrec
      simp only [scanLines, ha]
      exact hrec

/-- C3 counterexample: `"# eval('2+2')"` contains the substring `eval(` with
`eval` in the dangerous-function list, yet the validator skips the stripped
line because it starts with `#` and returns safe. -/
theorem C3_counterexample :
    strContains "# eval('2+2')" "eval(" = true ∧
    "eval" ∈ default_python_policy.dangerous_functions ∧
    validate_code_safety default_python_policy "# eval('2+2')" =
      (true, "Code safety validation passed") :=
  ⟨by decide, by decide, by decide⟩

/-- C3 amended: for every code string containing `name(` (with `name` in the
dangerous-function list) on a line that the scan does not skip — non-blank
after stripping and not starting with `#` — the validator returns unsafe;
and when that line is the first line the scan flags and `name` is the first
dangerous function in policy order matching it, the reason cites `name` and
the correct 1-based line number.  (Occurrences on skipped lines are not
reported, and an earlier line or an earlier-listed function can be cited
instead: the counterexample forces these provisos.) -/
theorem C3_dangerous_function_detected (code name : String)
    (hmem : name ∈ default_python_policy.dangerous_functions) :
    (∀ l, l ∈ pySplitLines code →
      (pyStripStr l).data.isEmpty = false →
      strStartsWith (pyStripStr l) "#" = false →
      strContains (pyStripStr l) (name ++ "(") = true →
      (validate_code_safety default_python_policy code).1 = false) ∧
    (∀ i l, (pySplitLines code).get? i = some l →
      (∀ j, j < i → ∀ l', (pySplitLines code).get? j = some l' →
        findViolation default_python_policy l' = none) →
      (pyStripStr l).data.isEmpty = false →
      strStartsWith (pyStripStr l) "#" = false →
      default_python_policy.dangerous_functions.find?
        (fun f => strContains (pyStripStr l) (f ++ "(")) = some name →
      validate_code_safety default_python_policy code =
        (false, s!"Dangerous function '{name}' found at line {i + 1}")) := by
  constructor
  · intro l hmem2 hne hnc hcont
    have hsome : (default_python_policy.dangerous_functions.find?
        (fun f => strContains (pyStripStr l) (f ++ "("))).isSome := by
      rw [List.find?_isSome]
      exact ⟨name, hmem, hcont⟩
    have hfv : findViolation default_python_policy l ≠ none := by
      unfold findViolation
      simp only [hne, hnc, Bool.or_self, Bool.false_eq_true, if_false]
      cases hfind : default_python_policy.dangerous_functions.find?
          (fun f => strContains (pyStripStr l) (f ++ "(")) with
      | none => rw [hfind] at hsome; simp at hsome
      | some f => simp [hfind]
    have hs := scanLines_isSome_of_mem default_python_policy
      (pySplitLines code) 1 l hmem2 hfv
    unfold validate_code_safety
    cases hscan : scanLines default_python_policy 1 (pySplitLines code) with
    | none => exact absurd hscan hs
    | some msg => rfl
  · intro i l hget hfirst hne hnc hfind
    have hfv : findViolation default_python_policy l =
        some (Violation.func name) := by
      unfold findViolation
      simp only [hne, hnc, Bool.or_self, Bool.false_eq_true, if_false, hfind]
    have hscan := scanLines_first default_python_policy (pySplitLines code)
      i 1 l (Violation.func name) hget hfirst hfv
    have harith : 1 + i = i + 1 := by omega
    rw [harith] at hscan
    unfold validate_code_safety
    rw [hscan]
    rfl

/-- C3 amended witness: `eval(` on line 2 of a two-line program is reported
as dangerous function `eval` at line 2. -/
theorem C3_dangerous_function_detected_witness :
    validate_code_safety default_python_policy "x = 1\neval('2+2')" =
      (false, "Dangerous function 'eval' found at line 2") := by
  have h := (C3_dangerous_function_detected "x = 1\neval('2+2')" "eval"
      (by decide)).2 1 "eval('2+2')" (by decide)
    (fun j hj l' hl' => by
      have hj0 : j = 0 := by omega
      subst hj0
      have h0 : (pySplitLines "x = 1\neval('2+2')").get? 0 = some "x = 1" := by
        decide
      rw [h0] at hl'
      cases hl'
      decide)
    (by decide) (by decide) (by decide)
  exact h.trans (by decide)
